import Mathlib

/-!
# IBM Cloud janitor for Boskos: the janitor loop and the PowerVS maintenance guard

Shallow embedding of

* `run` in `cmd/ibmcloud-janitor-boskos/main.go`, and
* `PowerVSWorkspace.cleanup` in
  `internal/ibmcloud-janitor/resources/powervs_workspaces.go`.

Go values are modelled as follows.

* An `error` is the pair of what `run` can observe of it: the text returned by
  `Error()` and whether `errors.Cause` of it is `boskosClient.ErrNotFound`.
  A nil error is `none`.
* `time.Time` instants and `time.Duration` values are integers counting
  nanoseconds; `After` and `Before` are the strict orders on instants.
* The collaborators that `run` and `cleanup` call (the pool client,
  `resources.CleanAll`, the notification service, the clock) are explicit
  state-passing functions, and every call is recorded in a trace.
* The endless `for` of `run` is driven by fuel: one unit per loop-body execution
  and one per start of a new pass over the resource types.
-/

namespace Boskos

/-! ## Go runtime values -/

/-- Resource states `common.Free`, `common.Dirty`, `common.Cleaning`. -/
inductive ResourceState where
  | Free
  | Dirty
  | Cleaning
deriving DecidableEq, Repr

/-- Contents of a `common.UserData` map. -/
abbrev UserData := List (String × String)

/-- Fields of `common.Resource` read by the janitor (`Type_` is the Go field `Type`). -/
structure Resource where
  Name : String
  Type_ : String
  State : ResourceState
  UserData : UserData
deriving DecidableEq, Repr

/-- A non-nil Go `error`: its `Error()` text and whether `errors.Cause` of it is
`boskosClient.ErrNotFound`. -/
structure GoError where
  msg : String
  causeIsNotFound : Bool
deriving DecidableEq, Repr

deriving instance DecidableEq for Except

/-- Go `errors.New(text)`: a fresh error, which is its own cause. -/
def errorsNew (text : String) : GoError :=
  { msg := text, causeIsNotFound := false }

/-- Go `errors.Wrap(err, message)` of `github.com/pkg/errors` on a non-nil `err`:
the text is `message: err.Error()` and the cause is the cause of `err`. -/
def errorsWrap (err : GoError) (message : String) : GoError :=
  { msg := message ++ ": " ++ err.msg, causeIsNotFound := err.causeIsNotFound }

/-- Does the character list `s` start with `sub`. -/
def startsWithChars : List Char → List Char → Bool
  | _, [] => true
  | [], _ :: _ => false
  | c :: cs, d :: ds => c == d && startsWithChars cs ds

/-- Does `sub` occur in `s` as a contiguous block. -/
def containsChars : List Char → List Char → Bool
  | [], sub => startsWithChars [] sub
  | c :: cs, sub => startsWithChars (c :: cs) sub || containsChars cs sub

/-- Go `strings.Contains(s, substr)`. -/
def stringsContains (s substr : String) : Bool :=
  containsChars s.data substr.data

/-- Go `time.Minute`, in nanoseconds. -/
def timeMinute : Int := 60000000000

/-- Go `time.Hour`, in nanoseconds. -/
def timeHour : Int := 3600000000000

/-! ## `main.go`: flags and constants -/

/-- Values of the command-line flags read by `run` (`rTypes`, `debug`,
`ignoreAPIKey`, `checkPowervsWorkspaces`, `adiditionTime`). -/
structure Flags where
  rTypes : List String
  debug : Bool
  ignoreAPIKey : Bool
  checkPowervsWorkspaces : Bool
  adiditionTime : Int
deriving DecidableEq, Repr

/-- Constant `sleepTime = time.Minute * 5`. -/
def sleepTime : Int := timeMinute * 5

/-- Constant `resourceReleaseError`. -/
def resourceReleaseError : String := "cannot release resource"

/-- Fields of `resources.CleanupOptions` as `run` fills them in. -/
structure CleanupOptions where
  Resource : Resource
  Debug : Bool
  IgnoreAPIKey : Bool
  CheckPowervsWorkspaces : Bool
  AdditionalTime : Int
deriving DecidableEq, Repr

/-! ## `powervs_workspaces.go`: the maintenance guard -/

/-- Constant `powerVS`. -/
def powerVS : String := "PowerVS"

/-- What `cleanup` reads of `ibmcloud.GetPowerVSResourceData`: the zone. -/
structure PowerVSResourceData where
  Zone : String
deriving DecidableEq, Repr

/-- What `cleanup` reads of a notification occurrence event: its `StartDate`.
The notification query filters on `startDate`, so every returned event has one. -/
structure NotificationEvent where
  StartDate : Int
deriving DecidableEq, Repr

/-- The object filter that `cleanup` builds with `filter.Build`. -/
structure ObjectFilter where
  eventTypeKeyName : String
  statusKeyName : String
  subjectContains : List String
  startDateFrom : Int
  startDateTo : Int
deriving DecidableEq, Repr

/-- Collaborators of `PowerVSWorkspace.cleanup`: the result of
`ibmcloud.GetPowerVSResourceData(options.Resource)`, the instant returned by
`time.Now().UTC()`, and the notification service answering
`Mask(objectMask).Filter(objectFilter).GetAllObjects()`. -/
structure GuardEnv where
  getPowerVSResourceData : Resource → Except GoError PowerVSResourceData
  now : Int
  getAllObjects : ObjectFilter → Except GoError (List NotificationEvent)

/-- The text of the error `cleanup` returns when an event is too close. -/
def maintenanceMessage : String :=
  "cannot release resource as data center is scheduled for planned maintenance"

/-- The `for _, event := range events` loop of `cleanup`: the first event with
`currentTime.After(event.StartDate.Add(-time.Hour*4)) &&
 currentTime.Before(event.StartDate.Add(time.Hour*4))` makes it return the
maintenance error; with no such event the function returns nil. -/
def cleanupEvents (currentTime : Int) : List NotificationEvent → Option GoError
  | [] => none
  | event :: events =>
    if event.StartDate + (-timeHour * 4) < currentTime
        ∧ currentTime < event.StartDate + timeHour * 4 then
      some (errorsNew maintenanceMessage)
    else
      cleanupEvents currentTime events

/-- The `objectFilter` that `cleanup` builds from the current time and the zone. -/
def buildObjectFilter (currentTime : Int) (zone : String) : ObjectFilter :=
  { eventTypeKeyName := "PLANNED"
    statusKeyName := "PUBLISHED"
    subjectContains := [powerVS, zone]
    startDateFrom := currentTime + (-7 * 24) * timeHour
    startDateTo := currentTime + (7 * 24) * timeHour }

/-- The method `PowerVSWorkspace.cleanup`. `none` is a nil error. -/
def PowerVSWorkspace.cleanup (options : CleanupOptions) (env : GuardEnv) : Option GoError :=
  match env.getPowerVSResourceData options.Resource with
  | .error err => some (errorsWrap err "failed to get the resource data")
  | .ok powervsData =>
    let currentTime := env.now
    match env.getAllObjects (buildObjectFilter currentTime powervsData.Zone) with
    | .error err => some err
    | .ok events => cleanupEvents currentTime events

/-! ## `main.go`: the janitor loop -/

/-- One observable action of `run`, with the answer it received. -/
inductive Event where
  | acquire (rtype : String) (state dest : ResourceState) (result : Except GoError Resource)
  | sleep (d : Int)
  | cleanAll (options : CleanupOptions) (userData : UserData) (result : Option GoError)
  | println (line : String)
  | logInfo (field value message : String)
  | updateOne (name : String) (state : ResourceState) (userData : UserData)
      (result : Option GoError)
  | releaseOne (name : String) (dest : ResourceState) (result : Option GoError)
deriving DecidableEq

/-- Collaborators of `run`, over a world state `σ`:

* `acquire`, `updateOne`, `releaseOne`: the Boskos client methods `Acquire`,
  `UpdateOne`, `ReleaseOne`;
* `cleanAll`: `resources.CleanAll`, which receives the acquired resource by
  pointer; it answers with the resource's `UserData` as it stands afterwards and
  the error (the resource's `Name` is not changed by cleaning);
* `quote`: the `%q` verb of `fmt` applied to a string. -/
structure Deps (σ : Type) where
  acquire : σ → String → ResourceState → ResourceState → σ × Except GoError Resource
  cleanAll : σ → CleanupOptions → σ × UserData × Option GoError
  updateOne : σ → String → ResourceState → UserData → σ × Option GoError
  releaseOne : σ → String → ResourceState → σ × Option GoError
  quote : String → String

/-- The `CleanupOptions` literal that `run` builds for an acquired resource. -/
def mkOptions (flags : Flags) (res : Resource) : CleanupOptions :=
  { Resource := res
    Debug := flags.debug
    IgnoreAPIKey := flags.ignoreAPIKey
    CheckPowervsWorkspaces := flags.checkPowervsWorkspaces
    AdditionalTime := flags.adiditionTime }

/-- The text logged when a release is skipped. -/
def skipMessage : String :=
  "Skip releasing resource as data center is scheduled for planned maintenance, resource will remain dirty"

/-- The body of `for _, resourceType := range rTypes` in `run`. The result is
the world afterwards, the actions performed, and `some err` when the body
executes `return err`, `none` when it goes on to the next resource type. -/
def runIteration {σ : Type} (flags : Flags) (D : Deps σ) (resourceType : String) (w : σ) :
    σ × List Event × Option GoError :=
  match D.acquire w resourceType .Dirty .Cleaning with
  | (w1, .error err) =>
    if err.causeIsNotFound then
      (w1, [.acquire resourceType .Dirty .Cleaning (.error err),
            .logInfo "resource type" resourceType "no dirty resource acquired",
            .sleep sleepTime], none)
    else
      (w1, [.acquire resourceType .Dirty .Cleaning (.error err)],
        some (errorsWrap err "Failed to retrieve a dirty resource from Boskos"))
  | (w1, .ok res) =>
    let options := mkOptions flags res
    match D.cleanAll w1 options with
    | (w2, userData, some err) =>
      if stringsContains err.msg resourceReleaseError then
        (w2, [.acquire resourceType .Dirty .Cleaning (.ok res),
              .cleanAll options userData (some err),
              .println err.msg,
              .logInfo "name" res.Name skipMessage], none)
      else
        (w2, [.acquire resourceType .Dirty .Cleaning (.ok res),
              .cleanAll options userData (some err),
              .println err.msg],
          some (errorsWrap err ("Failed to clean resource " ++ D.quote res.Name)))
    | (w2, userData, none) =>
      match D.updateOne w2 res.Name .Cleaning userData with
      | (w3, some err) =>
        (w3, [.acquire resourceType .Dirty .Cleaning (.ok res),
              .cleanAll options userData none,
              .updateOne res.Name .Cleaning userData (some err)],
          some (errorsWrap err ("Failed to update resource " ++ D.quote res.Name)))
      | (w3, none) =>
        match D.releaseOne w3 res.Name .Free with
        | (w4, some err) =>
          (w4, [.acquire resourceType .Dirty .Cleaning (.ok res),
                .cleanAll options userData none,
                .updateOne res.Name .Cleaning userData none,
                .releaseOne res.Name .Free (some err)],
            some (errorsWrap err ("Failed to release resoures " ++ D.quote res.Name)))
        | (w4, none) =>
          (w4, [.acquire resourceType .Dirty .Cleaning (.ok res),
                .cleanAll options userData none,
                .updateOne res.Name .Cleaning userData none,
                .releaseOne res.Name .Free none,
                .logInfo "name" res.Name "Released resource"], none)

/-- What is known of an execution of `run` when it returns or the fuel is spent:
the world, the actions so far, and the returned error (`none`: still looping). -/
structure RunResult (σ : Type) where
  world : σ
  trace : List Event
  err : Option GoError

/-- The two nested loops of `run`, from the point where `pending` are the
resource types left in the current pass. With `pending` empty the outer `for`
starts a new pass over `rTypes`. -/
def runLoop {σ : Type} (flags : Flags) (D : Deps σ) : Nat → List String → σ → RunResult σ
  | 0, _, w => { world := w, trace := [], err := none }
  | fuel + 1, [], w => runLoop flags D fuel flags.rTypes w
  | fuel + 1, resourceType :: rest, w =>
    match runIteration flags D resourceType w with
    | (w1, tr, some err) => { world := w1, trace := tr, err := some err }
    | (w1, tr, none) =>
      let r := runLoop flags D fuel rest w1
      { world := r.world, trace := tr ++ r.trace, err := r.err }

/-- The function `run`. -/
def run {σ : Type} (flags : Flags) (D : Deps σ) (fuel : Nat) (w : σ) : RunResult σ :=
  runLoop flags D fuel flags.rTypes w

/-! ## Scenarios -/

/-- Modelled from the spec: the not-found error of the pool client (section 6,
`Acquire(...) → Resource | NotFoundError | Error`). Its text is never read by
`run`. -/
def ErrNotFound : GoError :=
  { msg := "resources not found", causeIsNotFound := true }

/-- Modelled from the spec: the pool manager's `Acquire(type, fromState, toState)`
(section 5: it "atomically transitions Dirty→Cleaning and thereby grants
exclusive ownership to one caller"). The first resource of the type in state
`state` is moved to `dest` and returned; with none, the not-found error. -/
def poolAcquire : List Resource → String → ResourceState → ResourceState →
    List Resource × Except GoError Resource
  | [], _, _, _ => ([], .error ErrNotFound)
  | r :: rs, rtype, state, dest =>
    if r.Type_ = rtype ∧ r.State = state then
      ({ r with State := dest } :: rs, .ok { r with State := dest })
    else
      ((poolAcquire rs rtype state dest).1.cons r, (poolAcquire rs rtype state dest).2)

/-- Modelled from the spec: the pool manager's `UpdateOne(name, state, userData)`
(section 4.1: it persists the user data of the named resource). -/
def poolUpdateOne (pool : List Resource) (name : String) (state : ResourceState)
    (userData : UserData) : List Resource × Option GoError :=
  (pool.map fun r =>
    if r.Name = name then { r with State := state, UserData := userData } else r, none)

/-- Modelled from the spec: the pool manager's `ReleaseOne(name, state)`
(section 4.1: it publishes the named resource back to the pool in `dest`). -/
def poolReleaseOne (pool : List Resource) (name : String) (dest : ResourceState) :
    List Resource × Option GoError :=
  (pool.map fun r => if r.Name = name then { r with State := dest } else r, none)

/-- The state of the named resource in the pool. -/
def poolStateOf (pool : List Resource) (name : String) : Option ResourceState :=
  (pool.find? fun r => r.Name = name).map fun r => r.State

/-- Failures injected into a scenario, one slot per stage of `run`. -/
structure Faults where
  acquireErr : Option GoError
  cleanErr : Option GoError
  updateErr : Option GoError
  releaseErr : Option GoError

/-- No injected failure. -/
def noFaults : Faults :=
  { acquireErr := none, cleanErr := none, updateErr := none, releaseErr := none }

/-- A scenario: the pool model above behind the client, with injected failures;
cleaning leaves the user data as it is; `%q` puts a plain name in double quotes. -/
def poolDeps (f : Faults) : Deps (List Resource) :=
  { acquire := fun pool rtype state dest =>
      match f.acquireErr with
      | some e => (pool, .error e)
      | none => poolAcquire pool rtype state dest
    cleanAll := fun pool options => (pool, options.Resource.UserData, f.cleanErr)
    updateOne := fun pool name state userData =>
      match f.updateErr with
      | some e => (pool, some e)
      | none => poolUpdateOne pool name state userData
    releaseOne := fun pool name dest =>
      match f.releaseErr with
      | some e => (pool, some e)
      | none => poolReleaseOne pool name dest
    quote := fun s => "\"" ++ s ++ "\"" }

/-- A scenario guard environment: resource data with zone `zone`, clock at `now`,
and a notification service that answers `answer` to every query. -/
def guardEnv (zone : String) (now : Int)
    (answer : Except GoError (List NotificationEvent)) : GuardEnv :=
  { getPowerVSResourceData := fun _ => .ok { Zone := zone }
    now := now
    getAllObjects := fun _ => answer }

/-- A scenario: the pool model behind the client, and a `CleanAll` that hands
back the result of the maintenance guard `PowerVSWorkspace.cleanup` in `env`. -/
def guardedDeps (env : GuardEnv) : Deps (List Resource) :=
  { poolDeps noFaults with
    cleanAll := fun pool options =>
      (pool, options.Resource.UserData, PowerVSWorkspace.cleanup options env) }

/-- Scenario flags: the two default resource types, the guard enabled and the
default buffer of four hours. -/
def defaultFlags : Flags :=
  { rTypes := ["powervs-service", "vpc-service"]
    debug := false
    ignoreAPIKey := false
    checkPowervsWorkspaces := true
    adiditionTime := 4 * timeHour }

/-- Scenario pool: one dirty PowerVS resource. -/
def pool1 : List Resource :=
  [{ Name := "pvs-1", Type_ := "powervs-service", State := .Dirty,
     UserData := [("zone", "dal10")] }]

/-- Scenario resource: `pvs-1` as `Acquire` hands it out. -/
def res1 : Resource :=
  { Name := "pvs-1", Type_ := "powervs-service", State := .Cleaning,
    UserData := [("zone", "dal10")] }

/-- Scenario options for the guard alone. -/
def options1 (additionalTime : Int) : CleanupOptions :=
  { Resource := { Name := "pvs-1", Type_ := "powervs-service", State := .Cleaning,
                  UserData := [("zone", "dal10")] }
    Debug := false
    IgnoreAPIKey := false
    CheckPowervsWorkspaces := true
    AdditionalTime := additionalTime }

/-! ## The maintenance guard -/

theorem cleanupEvents_some_of_near (currentTime : Int) (events : List NotificationEvent)
    (h : ∃ ev ∈ events, ev.StartDate - 4 * timeHour < currentTime
      ∧ currentTime < ev.StartDate + 4 * timeHour) :
    cleanupEvents currentTime events = some (errorsNew maintenanceMessage) := by
  induction events with
  | nil => obtain ⟨ev, hev, _⟩ := h; cases hev
  | cons e es ih =>
    unfold cleanupEvents
    split
    · rfl
    · rename_i hne
      apply ih
      obtain ⟨ev, hev, h1, h2⟩ := h
      rcases List.mem_cons.mp hev with rfl | hmem
      · exfalso
        apply hne
        constructor <;> omega
      · exact ⟨ev, hmem, h1, h2⟩

theorem cleanupEvents_none_of_far (currentTime : Int) (events : List NotificationEvent)
    (h : ∀ ev ∈ events, currentTime ≤ ev.StartDate - 4 * timeHour
      ∨ ev.StartDate + 4 * timeHour ≤ currentTime) :
    cleanupEvents currentTime events = none := by
  induction events with
  | nil => rfl
  | cons e es ih =>
    unfold cleanupEvents
    split
    · rename_i hin
      exfalso
      rcases h e (List.mem_cons_self _ _) with h1 | h1 <;> omega
    · exact ih fun ev hev => h ev (List.mem_cons_of_mem _ hev)

theorem cleanup_of_events (options : CleanupOptions) (env : GuardEnv)
    (data : PowerVSResourceData) (events : List NotificationEvent)
    (hdata : env.getPowerVSResourceData options.Resource = .ok data)
    (hquery : env.getAllObjects (buildObjectFilter env.now data.Zone) = .ok events) :
    PowerVSWorkspace.cleanup options env = cleanupEvents env.now events := by
  simp only [PowerVSWorkspace.cleanup, hdata, hquery]

/-- C8 (maintenance guard, event at now): when the resource data and the event
list are fetched successfully and the list holds an event whose start time
equals the current time, `PowerVSWorkspace.cleanup` returns the error "cannot
release resource as data center is scheduled for planned maintenance", whatever
the other events are. -/
theorem cleanup_defers_when_event_starts_now (options : CleanupOptions) (env : GuardEnv)
    (data : PowerVSResourceData) (events : List NotificationEvent)
    (hdata : env.getPowerVSResourceData options.Resource = .ok data)
    (hquery : env.getAllObjects (buildObjectFilter env.now data.Zone) = .ok events)
    (hev : ∃ ev ∈ events, ev.StartDate = env.now) :
    PowerVSWorkspace.cleanup options env
      = some { msg := "cannot release resource as data center is scheduled for planned maintenance",
               causeIsNotFound := false } := by
  rw [cleanup_of_events options env data events hdata hquery]
  obtain ⟨ev, hmem, hst⟩ := hev
  have h := cleanupEvents_some_of_near env.now events
    ⟨ev, hmem, by unfold timeHour; omega, by unfold timeHour; omega⟩
  rw [h]
  rfl

theorem cleanup_defers_when_event_starts_now_witness :
    (∃ ev ∈ [({ StartDate := 900 } : NotificationEvent), { StartDate := 50 }],
        ev.StartDate = (guardEnv "dal10" 50 (.ok [{ StartDate := 900 }, { StartDate := 50 }])).now)
    ∧ PowerVSWorkspace.cleanup (options1 (4 * timeHour))
        (guardEnv "dal10" 50 (.ok [{ StartDate := 900 }, { StartDate := 50 }]))
      = some { msg := "cannot release resource as data center is scheduled for planned maintenance",
               causeIsNotFound := false } :=
  ⟨⟨{ StartDate := 50 }, by simp, rfl⟩,
   cleanup_defers_when_event_starts_now (options1 (4 * timeHour))
    (guardEnv "dal10" 50 (.ok [{ StartDate := 900 }, { StartDate := 50 }]))
    { Zone := "dal10" } [{ StartDate := 900 }, { StartDate := 50 }] rfl rfl
    ⟨{ StartDate := 50 }, by simp, rfl⟩⟩

/-- C9 (maintenance guard, safe case): when the resource data and the event list
are fetched successfully and no event has the current time in its closed danger
interval `[start − 4h, start + 4h]`, `PowerVSWorkspace.cleanup` returns nil. -/
theorem cleanup_safe_when_all_events_far (options : CleanupOptions) (env : GuardEnv)
    (data : PowerVSResourceData) (events : List NotificationEvent)
    (hdata : env.getPowerVSResourceData options.Resource = .ok data)
    (hquery : env.getAllObjects (buildObjectFilter env.now data.Zone) = .ok events)
    (hfar : ∀ ev ∈ events,
      ¬ (ev.StartDate - 4 * timeHour ≤ env.now ∧ env.now ≤ ev.StartDate + 4 * timeHour)) :
    PowerVSWorkspace.cleanup options env = none := by
  rw [cleanup_of_events options env data events hdata hquery]
  apply cleanupEvents_none_of_far
  intro ev hmem
  have := hfar ev hmem
  omega

theorem cleanup_safe_when_all_events_far_witness :
    (∀ ev ∈ [({ StartDate := 0 + 10 * timeHour } : NotificationEvent)],
      ¬ (ev.StartDate - 4 * timeHour ≤ 0 ∧ 0 ≤ ev.StartDate + 4 * timeHour))
    ∧ PowerVSWorkspace.cleanup (options1 (4 * timeHour))
        (guardEnv "dal10" 0 (.ok [{ StartDate := 0 + 10 * timeHour }])) = none
    ∧ PowerVSWorkspace.cleanup (options1 (4 * timeHour)) (guardEnv "dal10" 0 (.ok [])) = none :=
  ⟨by simp [timeHour],
   cleanup_safe_when_all_events_far (options1 (4 * timeHour))
    (guardEnv "dal10" 0 (.ok [{ StartDate := 0 + 10 * timeHour }]))
    { Zone := "dal10" } [{ StartDate := 0 + 10 * timeHour }] rfl rfl
    (by simp [guardEnv, timeHour]),
   cleanup_safe_when_all_events_far (options1 (4 * timeHour))
    (guardEnv "dal10" 0 (.ok [])) { Zone := "dal10" } [] rfl rfl (by simp)⟩

/-- C10, as stated, fails at both endpoints of the closed interval: with a single
event starting at `4h` and the clock at `0 = start − 4h`, and with a single event
starting at `0` and the clock at `4h = start + 4h`, the current time lies in
`[start − 4h, start + 4h]` and `PowerVSWorkspace.cleanup` returns nil. -/
theorem cleanup_endpoints_counterexample :
    ((4 * timeHour - 4 * timeHour ≤ 0 ∧ (0 : Int) ≤ 4 * timeHour + 4 * timeHour)
      ∧ PowerVSWorkspace.cleanup (options1 (4 * timeHour))
          (guardEnv "dal10" 0 (.ok [{ StartDate := 4 * timeHour }])) = none)
    ∧ ((0 - 4 * timeHour ≤ 4 * timeHour ∧ 4 * timeHour ≤ 0 + 4 * timeHour)
      ∧ PowerVSWorkspace.cleanup (options1 (4 * timeHour))
          (guardEnv "dal10" (4 * timeHour) (.ok [{ StartDate := 0 }])) = none) := by
  refine ⟨⟨by decide, by decide⟩, ⟨by decide, by decide⟩⟩

/-- C10, amended (the danger interval is open): with the default buffer of 4
hours, when the resource data and the event list are fetched successfully,
`PowerVSWorkspace.cleanup` returns the maintenance error if some event has
`start − 4h < now < start + 4h`, and returns nil if no event has
`start − 4h < now < start + 4h`; so an event with `now = start − 4h` or
`now = start + 4h` does not trigger the deferral. -/
theorem cleanup_danger_interval_open (options : CleanupOptions) (env : GuardEnv)
    (data : PowerVSResourceData) (events : List NotificationEvent)
    (hdata : env.getPowerVSResourceData options.Resource = .ok data)
    (hquery : env.getAllObjects (buildObjectFilter env.now data.Zone) = .ok events) :
    ((∃ ev ∈ events, ev.StartDate - 4 * timeHour < env.now
        ∧ env.now < ev.StartDate + 4 * timeHour) →
      PowerVSWorkspace.cleanup options env = some (errorsNew maintenanceMessage))
    ∧ ((∀ ev ∈ events, ¬ (ev.StartDate - 4 * timeHour < env.now
        ∧ env.now < ev.StartDate + 4 * timeHour)) →
      PowerVSWorkspace.cleanup options env = none) := by
  rw [cleanup_of_events options env data events hdata hquery]
  refine ⟨cleanupEvents_some_of_near env.now events, fun h => ?_⟩
  apply cleanupEvents_none_of_far
  intro ev hmem
  have := h ev hmem
  omega

theorem cleanup_danger_interval_open_witness :
    (PowerVSWorkspace.cleanup (options1 (4 * timeHour))
        (guardEnv "dal10" 1 (.ok [{ StartDate := 100 * timeHour }, { StartDate := 4 * timeHour }]))
      = some (errorsNew maintenanceMessage))
    ∧ PowerVSWorkspace.cleanup (options1 (4 * timeHour))
        (guardEnv "dal10" 0 (.ok [{ StartDate := 4 * timeHour }, { StartDate := 100 * timeHour }]))
      = none
    ∧ PowerVSWorkspace.cleanup (options1 (4 * timeHour))
        (guardEnv "dal10" (4 * timeHour)
          (.ok [{ StartDate := 0 }, { StartDate := 8 * timeHour }, { StartDate := -50 * timeHour }]))
      = none :=
  ⟨(cleanup_danger_interval_open (options1 (4 * timeHour))
      (guardEnv "dal10" 1 (.ok [{ StartDate := 100 * timeHour }, { StartDate := 4 * timeHour }]))
      { Zone := "dal10" } [{ StartDate := 100 * timeHour }, { StartDate := 4 * timeHour }]
      rfl rfl).1
      ⟨{ StartDate := 4 * timeHour }, by simp, by decide, by decide⟩,
   (cleanup_danger_interval_open (options1 (4 * timeHour))
      (guardEnv "dal10" 0 (.ok [{ StartDate := 4 * timeHour }, { StartDate := 100 * timeHour }]))
      { Zone := "dal10" } [{ StartDate := 4 * timeHour }, { StartDate := 100 * timeHour }]
      rfl rfl).2
      (by simp [guardEnv, timeHour]),
   (cleanup_danger_interval_open (options1 (4 * timeHour))
      (guardEnv "dal10" (4 * timeHour)
        (.ok [{ StartDate := 0 }, { StartDate := 8 * timeHour }, { StartDate := -50 * timeHour }]))
      { Zone := "dal10" }
      [{ StartDate := 0 }, { StartDate := 8 * timeHour }, { StartDate := -50 * timeHour }]
      rfl rfl).2
      (by simp [guardEnv, timeHour])⟩

/-- C6 fails on the code: `PowerVSWorkspace.cleanup` never reads
`options.AdditionalTime`. With a buffer of one hour handed in, any current time
`now` and a single event starting at `now + 2h` (outside `[start − 1h, start + 1h]`),
it returns the maintenance error, and it returns the same for every buffer. -/
theorem cleanup_ignores_AdditionalTime (now : Int) :
    (now < (now + 2 * timeHour) - 1 * timeHour)
    ∧ PowerVSWorkspace.cleanup (options1 (1 * timeHour))
        (guardEnv "dal10" now (.ok [{ StartDate := now + 2 * timeHour }]))
      = some (errorsNew maintenanceMessage)
    ∧ ∀ (options : CleanupOptions) (env : GuardEnv) (b : Int),
        PowerVSWorkspace.cleanup { options with AdditionalTime := b } env
          = PowerVSWorkspace.cleanup options env := by
  refine ⟨by unfold timeHour; omega, ?_, fun options env b => rfl⟩
  rw [cleanup_of_events _ _ { Zone := "dal10" } [{ StartDate := now + 2 * timeHour }] rfl rfl]
  apply cleanupEvents_some_of_near
  exact ⟨_, List.mem_singleton.mpr rfl, by simp only [guardEnv, timeHour]; omega, by
    simp only [guardEnv, timeHour]; omega⟩

/-! ## Text of errors -/

theorem startsWithChars_append (sub rest : List Char) :
    startsWithChars (sub ++ rest) sub = true := by
  induction sub with
  | nil => cases rest <;> rfl
  | cons c cs ih => simp [startsWithChars, ih]

theorem containsChars_of_startsWith (s sub : List Char)
    (h : startsWithChars s sub = true) : containsChars s sub = true := by
  cases s with
  | nil => simpa [containsChars] using h
  | cons c cs => simp [containsChars, h]

theorem containsChars_append_left (front s sub : List Char)
    (h : containsChars s sub = true) : containsChars (front ++ s) sub = true := by
  induction front with
  | nil => simpa using h
  | cons c cs ih => simp [containsChars, ih]

theorem stringsContains_maintenance (front : String) :
    stringsContains (front ++ maintenanceMessage) resourceReleaseError = true := by
  unfold stringsContains
  rw [String.data_append]
  apply containsChars_append_left
  apply containsChars_of_startsWith
  exact startsWithChars_append resourceReleaseError.data
    " as data center is scheduled for planned maintenance".data

/-! ## The janitor loop -/

theorem runLoop_cons_of_continue {σ : Type} (flags : Flags) (D : Deps σ) (fuel : Nat)
    (resourceType : String) (rest : List String) (w w1 : σ) (tr : List Event)
    (h : runIteration flags D resourceType w = (w1, tr, none)) :
    runLoop flags D (fuel + 1) (resourceType :: rest) w
      = { world := (runLoop flags D fuel rest w1).world
          trace := tr ++ (runLoop flags D fuel rest w1).trace
          err := (runLoop flags D fuel rest w1).err } := by
  simp only [runLoop, h]

theorem runLoop_cons_of_return {σ : Type} (flags : Flags) (D : Deps σ) (fuel : Nat)
    (resourceType : String) (rest : List String) (w w1 : σ) (tr : List Event) (err : GoError)
    (h : runIteration flags D resourceType w = (w1, tr, some err)) :
    runLoop flags D (fuel + 1) (resourceType :: rest) w
      = { world := w1, trace := tr, err := some err } := by
  simp only [runLoop, h]

theorem runIteration_trace_head {σ : Type} (flags : Flags) (D : Deps σ)
    (resourceType : String) (w : σ) :
    ∃ r more, (runIteration flags D resourceType w).2.1
      = Event.acquire resourceType .Dirty .Cleaning r :: more := by
  unfold runIteration
  split
  · split
    · exact ⟨_, _, rfl⟩
    · exact ⟨_, _, rfl⟩
  · dsimp only
    split
    · split
      · exact ⟨_, _, rfl⟩
      · exact ⟨_, _, rfl⟩
    · split
      · exact ⟨_, _, rfl⟩
      · split
        · exact ⟨_, _, rfl⟩
        · exact ⟨_, _, rfl⟩

theorem runLoop_cons_trace_head {σ : Type} (flags : Flags) (D : Deps σ) (fuel : Nat)
    (resourceType : String) (rest : List String) (w : σ) :
    ∃ r more, (runLoop flags D (fuel + 1) (resourceType :: rest) w).trace
      = Event.acquire resourceType .Dirty .Cleaning r :: more := by
  obtain ⟨r, more, h⟩ := runIteration_trace_head flags D resourceType w
  rcases hit : runIteration flags D resourceType w with ⟨w1, tr, _ | e⟩
  · rw [runLoop_cons_of_continue flags D fuel resourceType rest w w1 tr hit]
    rw [hit] at h
    dsimp only at h ⊢
    exact ⟨r, more ++ (runLoop flags D fuel rest w1).trace, by rw [h]; rfl⟩
  · rw [runLoop_cons_of_return flags D fuel resourceType rest w w1 tr e hit]
    rw [hit] at h
    exact ⟨r, more, h⟩

theorem runLoop_next_acquire {σ : Type} (flags : Flags) (D : Deps σ) (fuel : Nat)
    (rest : List String) (w : σ) (nxt : String)
    (hnext : (rest ++ flags.rTypes).head? = some nxt) :
    ∃ r more, (runLoop flags D (fuel + 2) rest w).trace
      = Event.acquire nxt .Dirty .Cleaning r :: more := by
  cases rest with
  | nil =>
    cases hty : flags.rTypes with
    | nil => rw [hty] at hnext; cases hnext
    | cons t ts =>
      rw [hty] at hnext
      cases hnext
      have : runLoop flags D (fuel + 2) [] w = runLoop flags D (fuel + 1) (nxt :: ts) w := by
        rw [runLoop, hty]
      rw [this]
      exact runLoop_cons_trace_head flags D fuel nxt ts w
  | cons t ts =>
    cases hnext
    exact runLoop_cons_trace_head flags D (fuel + 1) nxt ts w

theorem runIteration_notFound {σ : Type} (flags : Flags) (D : Deps σ) (resourceType : String)
    (w w1 : σ) (err : GoError)
    (hacq : D.acquire w resourceType .Dirty .Cleaning = (w1, .error err))
    (hnf : err.causeIsNotFound = true) :
    runIteration flags D resourceType w
      = (w1, [.acquire resourceType .Dirty .Cleaning (.error err),
              .logInfo "resource type" resourceType "no dirty resource acquired",
              .sleep sleepTime], none) := by
  simp only [runIteration, hacq, hnf, if_true]

theorem runIteration_acquire_failed {σ : Type} (flags : Flags) (D : Deps σ)
    (resourceType : String) (w w1 : σ) (err : GoError)
    (hacq : D.acquire w resourceType .Dirty .Cleaning = (w1, .error err))
    (hnf : err.causeIsNotFound = false) :
    runIteration flags D resourceType w
      = (w1, [.acquire resourceType .Dirty .Cleaning (.error err)],
          some (errorsWrap err "Failed to retrieve a dirty resource from Boskos")) := by
  simp [runIteration, hacq, hnf]

theorem runIteration_deferred {σ : Type} (flags : Flags) (D : Deps σ) (resourceType : String)
    (w w1 w2 : σ) (res : Resource) (userData : UserData) (err : GoError)
    (hacq : D.acquire w resourceType .Dirty .Cleaning = (w1, .ok res))
    (hclean : D.cleanAll w1 (mkOptions flags res) = (w2, userData, some err))
    (htext : stringsContains err.msg resourceReleaseError = true) :
    runIteration flags D resourceType w
      = (w2, [.acquire resourceType .Dirty .Cleaning (.ok res),
              .cleanAll (mkOptions flags res) userData (some err),
              .println err.msg,
              .logInfo "name" res.Name skipMessage], none) := by
  simp only [runIteration, hacq, hclean, htext, if_true]

theorem runIteration_clean_failed {σ : Type} (flags : Flags) (D : Deps σ)
    (resourceType : String) (w w1 w2 : σ) (res : Resource) (userData : UserData)
    (err : GoError)
    (hacq : D.acquire w resourceType .Dirty .Cleaning = (w1, .ok res))
    (hclean : D.cleanAll w1 (mkOptions flags res) = (w2, userData, some err))
    (htext : stringsContains err.msg resourceReleaseError = false) :
    runIteration flags D resourceType w
      = (w2, [.acquire resourceType .Dirty .Cleaning (.ok res),
              .cleanAll (mkOptions flags res) userData (some err),
              .println err.msg],
          some (errorsWrap err ("Failed to clean resource " ++ D.quote res.Name))) := by
  simp [runIteration, hacq, hclean, htext]

theorem runIteration_update_failed {σ : Type} (flags : Flags) (D : Deps σ)
    (resourceType : String) (w w1 w2 w3 : σ) (res : Resource) (userData : UserData)
    (err : GoError)
    (hacq : D.acquire w resourceType .Dirty .Cleaning = (w1, .ok res))
    (hclean : D.cleanAll w1 (mkOptions flags res) = (w2, userData, none))
    (hupd : D.updateOne w2 res.Name .Cleaning userData = (w3, some err)) :
    runIteration flags D resourceType w
      = (w3, [.acquire resourceType .Dirty .Cleaning (.ok res),
              .cleanAll (mkOptions flags res) userData none,
              .updateOne res.Name .Cleaning userData (some err)],
          some (errorsWrap err ("Failed to update resource " ++ D.quote res.Name))) := by
  simp only [runIteration, hacq, hclean, hupd]

theorem runIteration_release_failed {σ : Type} (flags : Flags) (D : Deps σ)
    (resourceType : String) (w w1 w2 w3 w4 : σ) (res : Resource) (userData : UserData)
    (err : GoError)
    (hacq : D.acquire w resourceType .Dirty .Cleaning = (w1, .ok res))
    (hclean : D.cleanAll w1 (mkOptions flags res) = (w2, userData, none))
    (hupd : D.updateOne w2 res.Name .Cleaning userData = (w3, none))
    (hrel : D.releaseOne w3 res.Name .Free = (w4, some err)) :
    runIteration flags D resourceType w
      = (w4, [.acquire resourceType .Dirty .Cleaning (.ok res),
              .cleanAll (mkOptions flags res) userData none,
              .updateOne res.Name .Cleaning userData none,
              .releaseOne res.Name .Free (some err)],
          some (errorsWrap err ("Failed to release resoures " ++ D.quote res.Name))) := by
  simp only [runIteration, hacq, hclean, hupd, hrel]

theorem runIteration_released {σ : Type} (flags : Flags) (D : Deps σ)
    (resourceType : String) (w w1 w2 w3 w4 : σ) (res : Resource) (userData : UserData)
    (hacq : D.acquire w resourceType .Dirty .Cleaning = (w1, .ok res))
    (hclean : D.cleanAll w1 (mkOptions flags res) = (w2, userData, none))
    (hupd : D.updateOne w2 res.Name .Cleaning userData = (w3, none))
    (hrel : D.releaseOne w3 res.Name .Free = (w4, none)) :
    runIteration flags D resourceType w
      = (w4, [.acquire resourceType .Dirty .Cleaning (.ok res),
              .cleanAll (mkOptions flags res) userData none,
              .updateOne res.Name .Cleaning userData none,
              .releaseOne res.Name .Free none,
              .logInfo "name" res.Name "Released resource"], none) := by
  simp only [runIteration, hacq, hclean, hupd, hrel]

/-- C7 (not found): when `Acquire` answers with an error whose cause is
`ErrNotFound`, the loop body returns nothing, performs exactly the `Acquire`,
one log line and a sleep of `sleepTime` = 5 minutes, so makes no `UpdateOne` or
`ReleaseOne` call, and in `run` the next action after that sleep is the `Acquire`
for the next resource type (the first one again after the last). -/
theorem run_notFound_sleeps_then_continues {σ : Type} (flags : Flags) (D : Deps σ)
    (fuel : Nat) (resourceType : String) (rest : List String) (w w1 : σ) (err : GoError)
    (nxt : String)
    (hacq : D.acquire w resourceType .Dirty .Cleaning = (w1, .error err))
    (hnf : err.causeIsNotFound = true)
    (hnext : (rest ++ flags.rTypes).head? = some nxt) :
    runIteration flags D resourceType w
      = (w1, [.acquire resourceType .Dirty .Cleaning (.error err),
              .logInfo "resource type" resourceType "no dirty resource acquired",
              .sleep sleepTime], none)
    ∧ sleepTime = 5 * timeMinute
    ∧ ∃ r more, (runLoop flags D (fuel + 3) (resourceType :: rest) w).trace
        = [.acquire resourceType .Dirty .Cleaning (.error err),
           .logInfo "resource type" resourceType "no dirty resource acquired",
           .sleep sleepTime,
           .acquire nxt .Dirty .Cleaning r] ++ more := by
  have hit := runIteration_notFound flags D resourceType w w1 err hacq hnf
  refine ⟨hit, by decide, ?_⟩
  obtain ⟨r, more, h⟩ := runLoop_next_acquire flags D fuel rest w1 nxt hnext
  refine ⟨r, more, ?_⟩
  rw [runLoop_cons_of_continue flags D (fuel + 2) resourceType rest w w1 _ hit]
  dsimp only
  rw [h]
  rfl

/-- C3 (deferral): when the cleanup of an acquired resource returns an error
whose text is the maintenance message, possibly behind a wrapping text, the loop
body returns nothing and performs exactly the `Acquire`, the `CleanAll`, a print
and one log line, so neither `UpdateOne` nor `ReleaseOne`; in `run` the next
action is the `Acquire` for the next resource type (the first one again after
the last). -/
theorem run_deferral_skips_update_and_release {σ : Type} (flags : Flags) (D : Deps σ)
    (fuel : Nat) (resourceType : String) (rest : List String) (w w1 w2 : σ) (res : Resource)
    (userData : UserData) (err : GoError) (front nxt : String)
    (hacq : D.acquire w resourceType .Dirty .Cleaning = (w1, .ok res))
    (hclean : D.cleanAll w1 (mkOptions flags res) = (w2, userData, some err))
    (htext : err.msg = front
      ++ "cannot release resource as data center is scheduled for planned maintenance")
    (hnext : (rest ++ flags.rTypes).head? = some nxt) :
    runIteration flags D resourceType w
      = (w2, [.acquire resourceType .Dirty .Cleaning (.ok res),
              .cleanAll (mkOptions flags res) userData (some err),
              .println err.msg,
              .logInfo "name" res.Name skipMessage], none)
    ∧ ∃ r more, (runLoop flags D (fuel + 3) (resourceType :: rest) w).trace
        = [.acquire resourceType .Dirty .Cleaning (.ok res),
           .cleanAll (mkOptions flags res) userData (some err),
           .println err.msg,
           .logInfo "name" res.Name skipMessage,
           .acquire nxt .Dirty .Cleaning r] ++ more := by
  have hc : stringsContains err.msg resourceReleaseError = true := by
    rw [htext]
    exact stringsContains_maintenance front
  have hit := runIteration_deferred flags D resourceType w w1 w2 res userData err hacq hclean hc
  refine ⟨hit, ?_⟩
  obtain ⟨r, more, h⟩ := runLoop_next_acquire flags D fuel rest w2 nxt hnext
  refine ⟨r, more, ?_⟩
  rw [runLoop_cons_of_continue flags D (fuel + 2) resourceType rest w w2 _ hit]
  dsimp only
  rw [h]
  rfl

/-- C2 (update, then release): when the cleanup of an acquired resource returns
nil, the next action of `run` is `UpdateOne(res.Name, Cleaning, userData)` with
the user data as the cleanup left it. If that fails, `run` returns there and no
`ReleaseOne` is made. If it succeeds, the action right after it is
`ReleaseOne(res.Name, Free)`. -/
theorem run_success_updates_then_releases {σ : Type} (flags : Flags) (D : Deps σ)
    (fuel : Nat) (resourceType : String) (rest : List String) (w w1 w2 : σ) (res : Resource)
    (userData : UserData)
    (hacq : D.acquire w resourceType .Dirty .Cleaning = (w1, .ok res))
    (hclean : D.cleanAll w1 (mkOptions flags res) = (w2, userData, none)) :
    (∀ w3 err, D.updateOne w2 res.Name .Cleaning userData = (w3, some err) →
      (runLoop flags D (fuel + 1) (resourceType :: rest) w).trace
        = [.acquire resourceType .Dirty .Cleaning (.ok res),
           .cleanAll (mkOptions flags res) userData none,
           .updateOne res.Name .Cleaning userData (some err)]
      ∧ (runLoop flags D (fuel + 1) (resourceType :: rest) w).err
        = some (errorsWrap err ("Failed to update resource " ++ D.quote res.Name)))
    ∧ (∀ w3, D.updateOne w2 res.Name .Cleaning userData = (w3, none) →
      ∃ more, (runLoop flags D (fuel + 1) (resourceType :: rest) w).trace
        = [.acquire resourceType .Dirty .Cleaning (.ok res),
           .cleanAll (mkOptions flags res) userData none,
           .updateOne res.Name .Cleaning userData none,
           .releaseOne res.Name .Free (D.releaseOne w3 res.Name .Free).2] ++ more) := by
  constructor
  · intro w3 err hupd
    rw [runLoop_cons_of_return flags D fuel resourceType rest w w3 _ _
      (runIteration_update_failed flags D resourceType w w1 w2 w3 res userData err
        hacq hclean hupd)]
    exact ⟨rfl, rfl⟩
  · intro w3 hupd
    rcases hrel : D.releaseOne w3 res.Name .Free with ⟨w4, _ | e⟩
    · rw [runLoop_cons_of_continue flags D fuel resourceType rest w w4 _
        (runIteration_released flags D resourceType w w1 w2 w3 w4 res userData
          hacq hclean hupd hrel)]
      exact ⟨_, rfl⟩
    · rw [runLoop_cons_of_return flags D fuel resourceType rest w w4 _ _
        (runIteration_release_failed flags D resourceType w w1 w2 w3 w4 res userData e
          hacq hclean hupd hrel)]
      exact ⟨[], rfl⟩

theorem run_notFound_sleeps_then_continues_witness :
    (poolDeps noFaults).acquire [] "powervs-service" .Dirty .Cleaning = ([], .error ErrNotFound)
    ∧ ∃ r more, (runLoop defaultFlags (poolDeps noFaults) 3
          ["powervs-service", "vpc-service"] []).trace
        = [.acquire "powervs-service" .Dirty .Cleaning (.error ErrNotFound),
           .logInfo "resource type" "powervs-service" "no dirty resource acquired",
           .sleep sleepTime,
           .acquire "vpc-service" .Dirty .Cleaning r] ++ more :=
  ⟨rfl, (run_notFound_sleeps_then_continues defaultFlags (poolDeps noFaults) 0
    "powervs-service" ["vpc-service"] [] [] ErrNotFound "vpc-service" rfl rfl rfl).2.2⟩

theorem run_deferral_skips_update_and_release_witness :
    (guardedDeps (guardEnv "dal10" 0 (.ok [{ StartDate := 0 }]))).cleanAll [res1]
        (mkOptions defaultFlags res1)
      = ([res1], res1.UserData, some (errorsNew maintenanceMessage))
    ∧ runIteration defaultFlags (guardedDeps (guardEnv "dal10" 0 (.ok [{ StartDate := 0 }])))
        "powervs-service" pool1
      = ([res1], [.acquire "powervs-service" .Dirty .Cleaning (.ok res1),
              .cleanAll (mkOptions defaultFlags res1) res1.UserData
                (some (errorsNew maintenanceMessage)),
              .println maintenanceMessage,
              .logInfo "name" "pvs-1" skipMessage], none) :=
  ⟨rfl, (run_deferral_skips_update_and_release defaultFlags
    (guardedDeps (guardEnv "dal10" 0 (.ok [{ StartDate := 0 }]))) 0
    "powervs-service" ["vpc-service"] pool1 [res1] [res1] res1 res1.UserData
    (errorsNew maintenanceMessage) "" "vpc-service" rfl rfl rfl rfl).1⟩

theorem run_success_updates_then_releases_witness :
    ((runLoop defaultFlags (poolDeps { noFaults with updateErr := some (errorsNew "conflict") }) 1
          ["powervs-service", "vpc-service"] pool1).trace
        = [.acquire "powervs-service" .Dirty .Cleaning (.ok res1),
           .cleanAll (mkOptions defaultFlags res1) res1.UserData none,
           .updateOne "pvs-1" .Cleaning res1.UserData (some (errorsNew "conflict"))]
      ∧ (runLoop defaultFlags (poolDeps { noFaults with updateErr := some (errorsNew "conflict") }) 1
          ["powervs-service", "vpc-service"] pool1).err
        = some { msg := "Failed to update resource \"pvs-1\": conflict",
                 causeIsNotFound := false })
    ∧ ∃ more, (runLoop defaultFlags (poolDeps noFaults) 1
          ["powervs-service", "vpc-service"] pool1).trace
        = [.acquire "powervs-service" .Dirty .Cleaning (.ok res1),
           .cleanAll (mkOptions defaultFlags res1) res1.UserData none,
           .updateOne "pvs-1" .Cleaning res1.UserData none,
           .releaseOne "pvs-1" .Free none] ++ more :=
  ⟨(run_success_updates_then_releases defaultFlags
      (poolDeps { noFaults with updateErr := some (errorsNew "conflict") }) 0
      "powervs-service" ["vpc-service"] pool1 [res1] [res1] res1 res1.UserData rfl rfl).1
      [res1] (errorsNew "conflict") rfl,
   (run_success_updates_then_releases defaultFlags (poolDeps noFaults) 0
      "powervs-service" ["vpc-service"] pool1 [res1] [res1] res1 res1.UserData rfl rfl).2
      [res1] rfl⟩

/-- C4, as stated, fails at the `Acquire` stage: with the two default resource
types, a pool holding the dirty resource `pvs-1` and an `Acquire` that fails
with "connection refused", `run` returns after that one call with the text
"Failed to retrieve a dirty resource from Boskos: connection refused", which
holds neither the name of a resource nor the resource type asked for. -/
theorem run_acquire_failure_counterexample :
    run defaultFlags (poolDeps { noFaults with acquireErr := some (errorsNew "connection refused") })
        1 pool1
      = { world := pool1
          trace := [.acquire "powervs-service" .Dirty .Cleaning
                      (.error (errorsNew "connection refused"))]
          err := some { msg := "Failed to retrieve a dirty resource from Boskos: connection refused"
                        causeIsNotFound := false } }
    ∧ stringsContains "Failed to retrieve a dirty resource from Boskos: connection refused"
        "pvs-1" = false
    ∧ stringsContains "Failed to retrieve a dirty resource from Boskos: connection refused"
        "powervs-service" = false := by
  refine ⟨rfl, by decide, by decide⟩

/-- C4, amended: a failure of `Acquire` whose cause is not `ErrNotFound`, a
failure of the cleanup whose text does not hold "cannot release resource", a
failure of `UpdateOne` and a failure of `ReleaseOne` each make `run` return at
once, with no action after the failing one. The returned text is
"Failed to retrieve a dirty resource from Boskos: " and the cause for `Acquire`
(no resource is named), and "Failed to clean resource ", "Failed to update
resource " or "Failed to release resoures " followed by the `%q` form of the
acquired resource's name, ": " and the cause for the other three. -/
theorem run_generic_failure_aborts {σ : Type} (flags : Flags) (D : Deps σ)
    (fuel : Nat) (resourceType : String) (rest : List String) (w : σ) :
    (∀ w1 err, D.acquire w resourceType .Dirty .Cleaning = (w1, .error err) →
      err.causeIsNotFound = false →
      runLoop flags D (fuel + 1) (resourceType :: rest) w
        = { world := w1
            trace := [.acquire resourceType .Dirty .Cleaning (.error err)]
            err := some { msg := "Failed to retrieve a dirty resource from Boskos" ++ ": "
                                  ++ err.msg
                          causeIsNotFound := false } })
    ∧ (∀ w1 res, D.acquire w resourceType .Dirty .Cleaning = (w1, .ok res) →
      (∀ w2 userData err, D.cleanAll w1 (mkOptions flags res) = (w2, userData, some err) →
        stringsContains err.msg resourceReleaseError = false →
        runLoop flags D (fuel + 1) (resourceType :: rest) w
          = { world := w2
              trace := [.acquire resourceType .Dirty .Cleaning (.ok res),
                        .cleanAll (mkOptions flags res) userData (some err),
                        .println err.msg]
              err := some { msg := "Failed to clean resource " ++ D.quote res.Name ++ ": "
                                    ++ err.msg
                            causeIsNotFound := err.causeIsNotFound } })
      ∧ (∀ w2 userData, D.cleanAll w1 (mkOptions flags res) = (w2, userData, none) →
        (∀ w3 err, D.updateOne w2 res.Name .Cleaning userData = (w3, some err) →
          runLoop flags D (fuel + 1) (resourceType :: rest) w
            = { world := w3
                trace := [.acquire resourceType .Dirty .Cleaning (.ok res),
                          .cleanAll (mkOptions flags res) userData none,
                          .updateOne res.Name .Cleaning userData (some err)]
                err := some { msg := "Failed to update resource " ++ D.quote res.Name ++ ": "
                                      ++ err.msg
                              causeIsNotFound := err.causeIsNotFound } })
        ∧ (∀ w3, D.updateOne w2 res.Name .Cleaning userData = (w3, none) →
          ∀ w4 err, D.releaseOne w3 res.Name .Free = (w4, some err) →
          runLoop flags D (fuel + 1) (resourceType :: rest) w
            = { world := w4
                trace := [.acquire resourceType .Dirty .Cleaning (.ok res),
                          .cleanAll (mkOptions flags res) userData none,
                          .updateOne res.Name .Cleaning userData none,
                          .releaseOne res.Name .Free (some err)]
                err := some { msg := "Failed to release resoures " ++ D.quote res.Name ++ ": "
                                      ++ err.msg
                              causeIsNotFound := err.causeIsNotFound } }))) := by
  refine ⟨fun w1 err hacq hnf => ?_, fun w1 res hacq => ⟨fun w2 userData err hclean htext => ?_,
    fun w2 userData hclean => ⟨fun w3 err hupd => ?_, fun w3 hupd w4 err hrel => ?_⟩⟩⟩
  · rw [runLoop_cons_of_return flags D fuel resourceType rest w w1 _ _
      (runIteration_acquire_failed flags D resourceType w w1 err hacq hnf)]
    simp [errorsWrap, hnf]
  · rw [runLoop_cons_of_return flags D fuel resourceType rest w w2 _ _
      (runIteration_clean_failed flags D resourceType w w1 w2 res userData err
        hacq hclean htext)]
    rfl
  · rw [runLoop_cons_of_return flags D fuel resourceType rest w w3 _ _
      (runIteration_update_failed flags D resourceType w w1 w2 w3 res userData err
        hacq hclean hupd)]
    rfl
  · rw [runLoop_cons_of_return flags D fuel resourceType rest w w4 _ _
      (runIteration_release_failed flags D resourceType w w1 w2 w3 w4 res userData err
        hacq hclean hupd hrel)]
    rfl

theorem run_generic_failure_aborts_witness :
    (runLoop defaultFlags
        (poolDeps { noFaults with acquireErr := some (errorsNew "connection refused") }) 1
        ["powervs-service", "vpc-service"] pool1).err
      = some { msg := "Failed to retrieve a dirty resource from Boskos: connection refused"
               causeIsNotFound := false }
    ∧ (runLoop defaultFlags
        (poolDeps { noFaults with cleanErr := some (errorsNew "api key rotation failed") }) 1
        ["powervs-service", "vpc-service"] pool1).err
      = some { msg := "Failed to clean resource \"pvs-1\": api key rotation failed"
               causeIsNotFound := false }
    ∧ (runLoop defaultFlags
        (poolDeps { noFaults with updateErr := some (errorsNew "conflict") }) 1
        ["powervs-service", "vpc-service"] pool1).err
      = some { msg := "Failed to update resource \"pvs-1\": conflict"
               causeIsNotFound := false }
    ∧ (runLoop defaultFlags
        (poolDeps { noFaults with releaseErr := some (errorsNew "gone") }) 1
        ["powervs-service", "vpc-service"] pool1).err
      = some { msg := "Failed to release resoures \"pvs-1\": gone"
               causeIsNotFound := false } :=
  ⟨congrArg RunResult.err ((run_generic_failure_aborts defaultFlags
      (poolDeps { noFaults with acquireErr := some (errorsNew "connection refused") }) 0
      "powervs-service" ["vpc-service"] pool1).1 pool1 (errorsNew "connection refused") rfl rfl),
   congrArg RunResult.err (((run_generic_failure_aborts defaultFlags
      (poolDeps { noFaults with cleanErr := some (errorsNew "api key rotation failed") }) 0
      "powervs-service" ["vpc-service"] pool1).2 [res1] res1 rfl).1 [res1] res1.UserData
      (errorsNew "api key rotation failed") rfl (by decide)),
   congrArg RunResult.err ((((run_generic_failure_aborts defaultFlags
      (poolDeps { noFaults with updateErr := some (errorsNew "conflict") }) 0
      "powervs-service" ["vpc-service"] pool1).2 [res1] res1 rfl).2 [res1] res1.UserData rfl).1
      [res1] (errorsNew "conflict") rfl),
   congrArg RunResult.err ((((run_generic_failure_aborts defaultFlags
      (poolDeps { noFaults with releaseErr := some (errorsNew "gone") }) 0
      "powervs-service" ["vpc-service"] pool1).2 [res1] res1 rfl).2 [res1] res1.UserData rfl).2
      [res1] rfl [res1] (errorsNew "gone") rfl)⟩

/-- C5, as stated, fails on the code: when the notification query fails with
the text "cannot release resource: notification session expired",
`PowerVSWorkspace.cleanup` returns that error, and `run`, receiving it as the
cleanup result, logs the skip message and goes on to the next resource type
instead of returning. -/
theorem run_query_failure_counterexample :
    PowerVSWorkspace.cleanup (mkOptions defaultFlags res1)
        (guardEnv "dal10" 0
          (.error (errorsNew "cannot release resource: notification session expired")))
      = some (errorsNew "cannot release resource: notification session expired")
    ∧ run defaultFlags
        (guardedDeps (guardEnv "dal10" 0
          (.error (errorsNew "cannot release resource: notification session expired"))))
        2 pool1
      = { world := [res1]
          trace := [.acquire "powervs-service" .Dirty .Cleaning (.ok res1),
                    .cleanAll (mkOptions defaultFlags res1) res1.UserData
                      (some (errorsNew "cannot release resource: notification session expired")),
                    .println "cannot release resource: notification session expired",
                    .logInfo "name" "pvs-1" skipMessage,
                    .acquire "vpc-service" .Dirty .Cleaning (.error ErrNotFound),
                    .logInfo "resource type" "vpc-service" "no dirty resource acquired",
                    .sleep sleepTime]
          err := none } := by
  refine ⟨rfl, rfl⟩

/-- C5, amended: when the notification query fails with an error `e`,
`PowerVSWorkspace.cleanup` returns `e` itself. When `run` receives that result
from the cleanup of an acquired resource and the text of `e` does not hold
"cannot release resource", `run` returns at once with the text
"Failed to clean resource ", the `%q` form of the resource's name, ": " and the
text of `e`; when the text of `e` does hold that phrase, the loop body takes the
skip branch and returns nothing. -/
theorem run_query_failure_classified_by_text {σ : Type} (flags : Flags) (D : Deps σ)
    (env : GuardEnv) (fuel : Nat) (resourceType : String) (rest : List String) (w w1 w2 : σ)
    (res : Resource) (userData : UserData) (data : PowerVSResourceData) (e : GoError)
    (hdata : env.getPowerVSResourceData (mkOptions flags res).Resource = .ok data)
    (hquery : env.getAllObjects (buildObjectFilter env.now data.Zone) = .error e)
    (hacq : D.acquire w resourceType .Dirty .Cleaning = (w1, .ok res))
    (hclean : D.cleanAll w1 (mkOptions flags res)
      = (w2, userData, PowerVSWorkspace.cleanup (mkOptions flags res) env)) :
    PowerVSWorkspace.cleanup (mkOptions flags res) env = some e
    ∧ (stringsContains e.msg "cannot release resource" = false →
      runLoop flags D (fuel + 1) (resourceType :: rest) w
        = { world := w2
            trace := [.acquire resourceType .Dirty .Cleaning (.ok res),
                      .cleanAll (mkOptions flags res) userData (some e),
                      .println e.msg]
            err := some { msg := "Failed to clean resource " ++ D.quote res.Name ++ ": " ++ e.msg
                          causeIsNotFound := e.causeIsNotFound } })
    ∧ (stringsContains e.msg "cannot release resource" = true →
      runIteration flags D resourceType w
        = (w2, [.acquire resourceType .Dirty .Cleaning (.ok res),
                .cleanAll (mkOptions flags res) userData (some e),
                .println e.msg,
                .logInfo "name" res.Name skipMessage], none)) := by
  have hc : PowerVSWorkspace.cleanup (mkOptions flags res) env = some e := by
    simp only [PowerVSWorkspace.cleanup, hdata, hquery]
  rw [hc] at hclean
  refine ⟨hc, fun htext => ?_, fun htext => ?_⟩
  · rw [runLoop_cons_of_return flags D fuel resourceType rest w w2 _ _
      (runIteration_clean_failed flags D resourceType w w1 w2 res userData e
        hacq hclean htext)]
    rfl
  · exact runIteration_deferred flags D resourceType w w1 w2 res userData e hacq hclean htext

theorem run_query_failure_classified_by_text_witness :
    PowerVSWorkspace.cleanup (mkOptions defaultFlags res1)
        (guardEnv "dal10" 0 (.error (errorsNew "401 Unauthorized")))
      = some (errorsNew "401 Unauthorized")
    ∧ runLoop defaultFlags
        (guardedDeps (guardEnv "dal10" 0 (.error (errorsNew "401 Unauthorized")))) 1
        ["powervs-service", "vpc-service"] pool1
      = { world := [res1]
          trace := [.acquire "powervs-service" .Dirty .Cleaning (.ok res1),
                    .cleanAll (mkOptions defaultFlags res1) res1.UserData
                      (some (errorsNew "401 Unauthorized")),
                    .println "401 Unauthorized"]
          err := some { msg := "Failed to clean resource \"pvs-1\": 401 Unauthorized"
                        causeIsNotFound := false } } :=
  ⟨(run_query_failure_classified_by_text defaultFlags
      (guardedDeps (guardEnv "dal10" 0 (.error (errorsNew "401 Unauthorized"))))
      (guardEnv "dal10" 0 (.error (errorsNew "401 Unauthorized"))) 0
      "powervs-service" ["vpc-service"] pool1 [res1] [res1] res1 res1.UserData
      { Zone := "dal10" } (errorsNew "401 Unauthorized") rfl rfl rfl rfl).1,
   (run_query_failure_classified_by_text defaultFlags
      (guardedDeps (guardEnv "dal10" 0 (.error (errorsNew "401 Unauthorized"))))
      (guardEnv "dal10" 0 (.error (errorsNew "401 Unauthorized"))) 0
      "powervs-service" ["vpc-service"] pool1 [res1] [res1] res1 res1.UserData
      { Zone := "dal10" } (errorsNew "401 Unauthorized") rfl rfl rfl rfl).2.1 (by decide)⟩

theorem poolAcquire_cleaning_only (rtype : String) :
    poolAcquire [res1] rtype .Dirty .Cleaning = ([res1], .error ErrNotFound) := by
  simp [poolAcquire, res1]

theorem runLoop_stuck (env : GuardEnv) (fuel : Nat) (pending : List String) :
    (runLoop defaultFlags (guardedDeps env) fuel pending [res1]).world = [res1]
    ∧ (runLoop defaultFlags (guardedDeps env) fuel pending [res1]).err = none
    ∧ ∀ ev ∈ (runLoop defaultFlags (guardedDeps env) fuel pending [res1]).trace,
        (∃ rtype, ev = .acquire rtype .Dirty .Cleaning (.error ErrNotFound))
        ∨ (∃ rtype, ev = .logInfo "resource type" rtype "no dirty resource acquired")
        ∨ ev = .sleep sleepTime := by
  induction fuel generalizing pending with
  | zero => exact ⟨rfl, rfl, fun ev hev => by cases hev⟩
  | succ n ih =>
    cases pending with
    | nil => exact ih defaultFlags.rTypes
    | cons rt rest =>
      have hit := runIteration_notFound defaultFlags (guardedDeps env) rt [res1] [res1]
        ErrNotFound (poolAcquire_cleaning_only rt) rfl
      rw [runLoop_cons_of_continue defaultFlags (guardedDeps env) n rt rest [res1] [res1] _ hit]
      obtain ⟨h1, h2, h3⟩ := ih rest
      refine ⟨h1, h2, fun ev hev => ?_⟩
      rcases List.mem_append.mp hev with hm | hm
      · simp only [List.mem_cons, List.mem_singleton, List.not_mem_nil, or_false] at hm
        rcases hm with rfl | rfl | rfl
        · exact Or.inl ⟨rt, rfl⟩
        · exact Or.inr (Or.inl ⟨rt, rfl⟩)
        · exact Or.inr (Or.inr rfl)
      · exact h3 ev hm

/-- C1 fails on the code. Pool: the dirty resource `pvs-1`; the cleanup hands
back the maintenance guard's result, and a maintenance event starts at the
current time. `run` acquires `pvs-1` (the pool moves it to Cleaning), the guard
answers with the maintenance error, `run` logs "... resource will remain dirty"
and goes on to the next resource type without any pool call. From then on, for
every amount of fuel, `run` has not returned, `pvs-1` is in state Cleaning in
the pool, and every later action is a fruitless `Acquire`, its log line or the
sleep: no `UpdateOne` or `ReleaseOne` is ever made for it. -/
theorem run_deferral_leaves_resource_in_Cleaning (fuel : Nat) :
    ∃ later,
      run defaultFlags (guardedDeps (guardEnv "dal10" 0 (.ok [{ StartDate := 0 }])))
          (fuel + 1) pool1
        = { world := [res1]
            trace := [.acquire "powervs-service" .Dirty .Cleaning (.ok res1),
                      .cleanAll (mkOptions defaultFlags res1) res1.UserData
                        (some (errorsNew maintenanceMessage)),
                      .println maintenanceMessage,
                      .logInfo "name" "pvs-1" skipMessage] ++ later
            err := none }
      ∧ poolStateOf pool1 "pvs-1" = some .Dirty
      ∧ poolStateOf [res1] "pvs-1" = some .Cleaning
      ∧ ∀ ev ∈ later,
          (∃ rtype, ev = .acquire rtype .Dirty .Cleaning (.error ErrNotFound))
          ∨ (∃ rtype, ev = .logInfo "resource type" rtype "no dirty resource acquired")
          ∨ ev = .sleep sleepTime := by
  have hit : runIteration defaultFlags
      (guardedDeps (guardEnv "dal10" 0 (.ok [{ StartDate := 0 }]))) "powervs-service" pool1
      = ([res1], [.acquire "powervs-service" .Dirty .Cleaning (.ok res1),
              .cleanAll (mkOptions defaultFlags res1) res1.UserData
                (some (errorsNew maintenanceMessage)),
              .println maintenanceMessage,
              .logInfo "name" "pvs-1" skipMessage], none) := rfl
  obtain ⟨h1, h2, h3⟩ := runLoop_stuck (guardEnv "dal10" 0 (.ok [{ StartDate := 0 }])) fuel
    ["vpc-service"]
  refine ⟨_, ?_, by decide, by decide, h3⟩
  show runLoop _ _ (fuel + 1) ("powervs-service" :: ["vpc-service"]) pool1 = _
  rw [runLoop_cons_of_continue _ _ fuel "powervs-service" ["vpc-service"] pool1 [res1] _ hit,
    h1, h2]

end Boskos
